import Mathlib

/-!
Verification of the stellar-option transaction engine.

This file is a shallow embedding of the option construction library
(`src/index.ts` and `src/helpers.ts`): a generator of three interlocking
Stellar transactions (`setup`, `exercise`, `refund`) implementing a
European-style option.

Modelling conventions, stated once here:

* JS `number` amounts, reserves and fees are embedded as `ℚ`.  The source
  transports amounts as their decimal strings (`amount.toString()`), and the
  stellar-sdk accepts only decimal amounts with at most 7 fractional digits,
  so the rational value determines the transported string exactly.
* Timestamps, ledger heights and sequence numbers are embedded as `ℤ`.
  Sequence numbers are produced by the source as exact decimal strings via
  `bignumber.js` (arbitrary-precision decimal arithmetic); the embedding
  transports the integer the string denotes, plus the string itself where a
  claim is about the string (`ledgerToSequenceNumber`).
* Fallible stellar-sdk operation constructors are embedded as
  `Except String`: `Operation.payment` / `Operation.createAccount` throw on
  an invalid amount (`isValidAmount`: positive — or non-negative where zero
  is allowed — at most 7 decimal places, at most the maximal int64 stroop
  count), `Operation.changeTrust` validates the limit allowing zero.
* The network side (Horizon queries) is embedded as an `Env` record: the
  seller account's sequence number (`server.loadAccount`), the latest ledger
  record (`server.ledgers().order(desc).limit(1).call()`), and the system
  clock `Date.now()` (in seconds) which `TransactionBuilder.setTimeout`
  reads.  A `none` field models a failed query.
* `TransactionBuilder` semantics embedded from js-stellar-base as used here:
  a builder seeded with an account at sequence `s` builds an envelope with
  sequence `s + 1`; `setTimeout t` on a builder without time bounds sets
  `minTime = 0` and `maxTime = now + t` (`maxTime = 0` when `t = 0`,
  TimeoutInfinite); `setTimeout 0` on a builder whose time bounds have
  `maxTime = 0` leaves them unchanged.
* Ledger time-bound semantics (stellar-core transaction validity): a
  transaction is too early when `closeTime < minTime` and too late when
  `maxTime ≠ 0 ∧ maxTime < closeTime`; hence its validity window is the
  inclusive interval `[minTime, maxTime]`, unbounded above when
  `maxTime = 0`.
* The transaction hash (32-byte SHA-256 of the envelope in the SDK) is
  embedded as an injective-by-construction encoding of the transaction
  record (`reprStr`); no claim depends on the hash value itself, only on
  which transaction is being hashed.
-/

set_option maxHeartbeats 1000000

namespace StellarOption

/-- A Stellar asset: the native lumen, or an `(code, issuer)` pair
(`StellarSdk.Asset`). -/
inductive Asset where
  | native
  | alphanum (code issuer : String)
deriving DecidableEq, Repr

/-- `Asset.isNative()` from the stellar-sdk. -/
def Asset.isNative : Asset → Bool
  | .native => true
  | .alphanum _ _ => false

/-- `AssetAmount` from `src/index.ts`: an asset together with a quantity. -/
structure AssetAmount where
  asset : Asset
  amount : ℚ
deriving DecidableEq, Repr

/-- `NetworkOptions` from `src/index.ts`. -/
structure NetworkOptions where
  network : String
  baseReserve : ℚ
  fee : ℚ
  timeout : ℤ
deriving DecidableEq, Repr

/-- `networkDefaults` from `src/index.ts`: public network, 0.5 base reserve,
fee 1000, timeout 1800 seconds. -/
def networkDefaults : NetworkOptions :=
  { network := "Public Global Stellar Network ; September 2015"
    baseReserve := 1/2
    fee := 1000
    timeout := 1800 }

/-- `OptionParams` from `src/index.ts`. -/
structure OptionParams where
  underlying : AssetAmount
  premium : AssetAmount
  exercise : AssetAmount
  expiry : ℤ
  delay : ℤ
deriving DecidableEq, Repr

/-- `Partial<NetworkOptions>`: the optional per-field override the `Option`
constructor merges over `networkDefaults` (absent field = `none`). -/
structure PartialNetworkOptions where
  network : Option String := none
  baseReserve : Option ℚ := none
  fee : Option ℚ := none
  timeout : Option ℤ := none
deriving DecidableEq, Repr

/-- The state of an `Option` instance (class `Option` in `src/index.ts`;
named `OptionData` here because `Option` is taken in Lean). -/
structure OptionData where
  buyer : String
  seller : String
  underlying : AssetAmount
  exercise : AssetAmount
  premium : AssetAmount
  expiry : ℤ
  delay : ℤ
  networkOptions : NetworkOptions
deriving DecidableEq, Repr

/-- The `Option` constructor: copies the params and merges the (partial)
network options over the defaults, override winning per field.  It performs
no validation. -/
def mkOptionData (buyer seller : String) (params : OptionParams)
    (networkOptions : PartialNetworkOptions := {}) : OptionData :=
  { buyer := buyer
    seller := seller
    underlying := params.underlying
    exercise := params.exercise
    premium := params.premium
    expiry := params.expiry
    delay := params.delay
    networkOptions :=
      { network := networkOptions.network.getD networkDefaults.network
        baseReserve := networkOptions.baseReserve.getD networkDefaults.baseReserve
        fee := networkOptions.fee.getD networkDefaults.fee
        timeout := networkOptions.timeout.getD networkDefaults.timeout } }

/-- One record of the Horizon ledger query: the ledger height (`sequence`)
and its close time (`closed_at`, parsed to seconds by the source via
`Date.parse(closed_at) / 1000`). -/
structure LedgerRecord where
  sequence : ℤ
  closedAtSeconds : ℤ
deriving DecidableEq, Repr

/-- The external world as seen by `createTransactions`:
`server.loadAccount(seller)` (its sequence number, `none` on failure),
the latest-ledger query (`none` on failure), and the system clock in
seconds (read only by `TransactionBuilder.setTimeout`). -/
structure Env where
  sellerAccountSeq : Option ℤ
  latestLedger : Option LedgerRecord
  systemTimeSeconds : ℤ
deriving DecidableEq, Repr

/-- A single ledger operation, as appended by the builder helpers in
`src/helpers.ts`.  Pre-authorized-transaction signers carry the hash of the
whitelisted transaction (modelled as a `String`, see the header comment). -/
inductive Operation where
  | createAccountOp (source destination : String) (startingBalance : ℚ)
  | bumpSequenceOp (source : String) (bumpTo : ℤ)
  | changeTrustOp (source : String) (asset : Asset) (limit : ℚ)
  | paymentOp (source destination : String) (asset : Asset) (amount : ℚ)
  | preAuthTxSignerOp (source : String) (txHash : String) (weight : ℕ)
  | masterWeightOp (source : String) (weight : ℕ)
  | accountMergeOp (source destination : String)
deriving DecidableEq, Repr

/-- Transaction time bounds as stored in the envelope.  `maxTime = 0` means
no upper bound (stellar-core treats a zero `maxTime` as infinite). -/
structure TimeBounds where
  minTime : ℤ
  maxTime : ℤ
deriving DecidableEq, Repr

/-- Ledger validity of a transaction with these time bounds at ledger close
time `t` (stellar-core `TransactionFrame`: too early when `t < minTime`,
too late when `maxTime ≠ 0 ∧ maxTime < t`). -/
def TimeBounds.containsTime (tb : TimeBounds) (t : ℤ) : Bool :=
  decide (tb.minTime ≤ t) && (decide (tb.maxTime = 0) || decide (t ≤ tb.maxTime))

/-- A built transaction envelope.  `seqSeed` is the sequence number of the
`StellarSdk.Account` the builder was seeded with; the envelope's own
sequence number is `seqSeed + 1` (`Transaction.sequenceNumber`). -/
structure Transaction where
  source : String
  seqSeed : ℤ
  fee : ℚ
  timeBounds : TimeBounds
  operations : List Operation
deriving DecidableEq, Repr

/-- The envelope's sequence number: js-stellar-base's `TransactionBuilder`
builds with the seed account's sequence number incremented by one. -/
def Transaction.sequenceNumber (t : Transaction) : ℤ := t.seqSeed + 1

/-- The transaction hash (`tx.hash()` in the SDK, SHA-256 of the envelope);
embedded as a total encoding of the envelope record. -/
def Transaction.hash (t : Transaction) : String := reprStr t

/-- Ledger semantics of the bump-sequence operation: the account's sequence
number becomes `bumpTo`, so the next sequence number a transaction from the
account can use is `bumpTo + 1`. -/
def bumpedNextValidSequence (bumpTo : ℤ) : ℤ := bumpTo + 1

/-- stellar-sdk amount validation (`isValidAmount`): a positive (or, with
`allowZero`, non-negative) decimal of at most 7 fractional digits not
exceeding the maximal int64 stroop count. -/
def isValidAmount (a : ℚ) (allowZero : Bool) : Bool :=
  (match allowZero with
   | true => decide (0 ≤ a)
   | false => decide (0 < a)) &&
  decide ((a * 10000000).den = 1) &&
  decide (a * 10000000 ≤ 9223372036854775807)

/-- `OptionTransactions` from `src/index.ts`: the three built envelopes. -/
structure OptionTransactions where
  setup : Transaction
  exercise : Transaction
  refund : Transaction
deriving DecidableEq, Repr

/-- `createAccount` from `src/helpers.ts`: appends a create-account
operation (the SDK validates the starting balance), then — when a sequence
number is supplied — a bump-sequence operation on the new account bumping
it to exactly that number. -/
def createAccount (ops : List Operation) (source destination : String)
    (balance : ℚ) (sequenceNumber : Option ℤ) : Except String (List Operation) :=
  if isValidAmount balance false then
    .ok (ops ++ [Operation.createAccountOp source destination balance] ++
      (match sequenceNumber with
       | some s => [Operation.bumpSequenceOp destination s]
       | none => []))
  else
    .error "createAccount: invalid startingBalance"

/-- `addTrustline` from `src/helpers.ts`: appends a change-trust operation
with the amount as the limit — only when the asset is not native.  The SDK
validates the limit (zero allowed). -/
def addTrustline (ops : List Operation) (source : String) (amount : AssetAmount) :
    Except String (List Operation) :=
  if amount.asset.isNative then
    .ok ops
  else if isValidAmount amount.amount true then
    .ok (ops ++ [Operation.changeTrustOp source amount.asset amount.amount])
  else
    .error "changeTrust: invalid limit"

/-- `removeTrustline` from `src/helpers.ts`: appends a change-trust
operation with limit `0` — only when the asset is not native.  The zero
limit always passes the SDK's validation, so this helper cannot fail. -/
def removeTrustline (ops : List Operation) (source : String) (amount : AssetAmount) :
    List Operation :=
  if amount.asset.isNative then
    ops
  else
    ops ++ [Operation.changeTrustOp source amount.asset 0]

/-- `sendPayment` from `src/helpers.ts`: appends a payment operation; the
SDK rejects a non-positive (or otherwise malformed) amount. -/
def sendPayment (ops : List Operation) (source destination : String)
    (amount : AssetAmount) : Except String (List Operation) :=
  if isValidAmount amount.amount false then
    .ok (ops ++ [Operation.paymentOp source destination amount.asset amount.amount])
  else
    .error "payment: invalid amount"

/-- `lockEscrow` from `src/helpers.ts`: appends, in order, a set-options
operation adding the buyer transaction's hash as a weight-1
pre-authorized-transaction signer, the same for the seller transaction,
then a set-options operation zeroing the master key weight. -/
def lockEscrow (ops : List Operation) (source : String)
    (buyerTx sellerTx : Transaction) : List Operation :=
  ops ++
    [Operation.preAuthTxSignerOp source buyerTx.hash 1,
     Operation.preAuthTxSignerOp source sellerTx.hash 1,
     Operation.masterWeightOp source 0]

/-- `mergeAccount` from `src/helpers.ts`: appends an account-merge
operation. -/
def mergeAccount (ops : List Operation) (source destination : String) :
    List Operation :=
  ops ++ [Operation.accountMergeOp source destination]

/-- The integer denoted by `ledgerToSequenceNumber`'s output: the ledger
index shifted into the high 32 bits of a 64-bit sequence number. -/
def ledgerToSequenceNumberValue (ledger : ℤ) : ℤ := ledger * 4294967296

/-- `ledgerToSequenceNumber` from `src/index.ts`: multiplies the ledger
index by `4294967296` using bignumber.js (exact decimal arithmetic) and
renders the exact decimal string.  bignumber.js renders integers of up to
20 digits in plain (non-exponential) notation, which covers every ledger
index up to `2^32`. -/
def ledgerToSequenceNumber (ledger : ℤ) : String :=
  toString (ledgerToSequenceNumberValue ledger)

/-- `Option.calculateEscrowSequenceNumber` from `src/index.ts`, as the
integer value it computes.  "now" is the close time of the latest ledger
(the source parses `closed_at`; `Date.now()` is never consulted); the
target ledger offset is the floor of `(timeout + (expiry - now)) / 10`.
`Math.floor` of the double-precision quotient coincides with exact floor
division for the integer-second inputs in range, embedded as `Int.fdiv`. -/
def calculateEscrowSequenceNumber (opt : OptionData) (ledger : LedgerRecord) : ℤ :=
  let now := ledger.closedAtSeconds
  let sequence := ledger.sequence
  let submitOffset := opt.networkOptions.timeout
  let expiryOffset := opt.expiry - now
  let midPointLedgerOffset := Int.fdiv (submitOffset + expiryOffset) 10
  ledgerToSequenceNumberValue (sequence + midPointLedgerOffset)

/-- `Option.calculateStartingBalance` from `src/index.ts`.  The boolean
`!asset.isNative()` is coerced to `1`/`0` by the JS arithmetic. -/
def calculateStartingBalance (opt : OptionData) : ℚ :=
  let isNonNative : ℚ := if opt.underlying.asset.isNative then 0 else 1
  let numSubentries := 4 + isNonNative
  let numOperations := 3 + isNonNative
  opt.networkOptions.baseReserve * numSubentries +
    0.0000001 * opt.networkOptions.fee * numOperations

/-- `Option.buildExerciseTransaction` from `src/index.ts`: a builder seeded
with the escrow account at the predicted sequence number, time bounds
`minTime = expiry`, `maxTime = expiry + delay`; operations: pay the
exercise price buyer → seller, pay the underlying escrow → buyer, remove
the trust line when non-native, merge escrow into seller. -/
def buildExerciseTransaction (opt : OptionData) (escrow : String)
    (sequenceNumber : ℤ) : Except String Transaction :=
  match sendPayment [] opt.buyer opt.seller opt.exercise with
  | .error e => .error e
  | .ok ops =>
    match sendPayment ops escrow opt.buyer opt.underlying with
    | .error e => .error e
    | .ok ops =>
      let ops := removeTrustline ops escrow opt.underlying
      let ops := mergeAccount ops escrow opt.seller
      .ok { source := escrow
            seqSeed := sequenceNumber
            fee := opt.networkOptions.fee
            timeBounds := { minTime := opt.expiry, maxTime := opt.expiry + opt.delay }
            operations := ops }

/-- `Option.buildRefundTransaction` from `src/index.ts`: a builder seeded
with the escrow account at the predicted sequence number, time bounds
`minTime = expiry + delay`, `maxTime = 0`; operations: pay the underlying
escrow → seller, remove the trust line when non-native, merge escrow into
seller.  The trailing `setTimeout(0)` (TimeoutInfinite) leaves the already
zero `maxTime` unchanged. -/
def buildRefundTransaction (opt : OptionData) (escrow : String)
    (sequenceNumber : ℤ) : Except String Transaction :=
  match sendPayment [] escrow opt.seller opt.underlying with
  | .error e => .error e
  | .ok ops =>
    let ops := removeTrustline ops escrow opt.underlying
    let ops := mergeAccount ops escrow opt.seller
    .ok { source := escrow
          seqSeed := sequenceNumber
          fee := opt.networkOptions.fee
          timeBounds := { minTime := opt.expiry + opt.delay, maxTime := 0 }
          operations := ops }

/-- `Option.createTransactions` from `src/index.ts`.  `escrow` is the
public key of the fresh random key pair.  Order, as in the source: load the
seller account, fetch the latest ledger, predict the escrow sequence number
and starting balance, then append to the setup builder: create-account
(+ bump), trust line (non-native only), underlying payment seller → escrow,
premium payment buyer → seller; build the refund then the exercise
transaction; lock the escrow (two pre-auth signers, master weight 0); the
final `setTimeout(networkOptions.timeout)` gives the setup transaction time
bounds `minTime = 0`, `maxTime = Date.now()/1000 + timeout` (`0` when the
timeout is `0`).  The escrow-key signature on `setup` is not modelled (no
claim concerns signatures). -/
def createTransactions (env : Env) (opt : OptionData) (escrow : String) :
    Except String OptionTransactions :=
  match env.sellerAccountSeq with
  | none => .error "loadAccount failed"
  | some account =>
    match env.latestLedger with
    | none => .error "ledger query failed"
    | some ledger =>
      let escrowSequence := calculateEscrowSequenceNumber opt ledger
      let balance := calculateStartingBalance opt
      match createAccount [] opt.seller escrow balance (some escrowSequence) with
      | .error e => .error e
      | .ok ops =>
        match addTrustline ops escrow opt.underlying with
        | .error e => .error e
        | .ok ops =>
          match sendPayment ops opt.seller escrow opt.underlying with
          | .error e => .error e
          | .ok ops =>
            match sendPayment ops opt.buyer opt.seller opt.premium with
            | .error e => .error e
            | .ok ops =>
              match buildRefundTransaction opt escrow escrowSequence with
              | .error e => .error e
              | .ok sellerTx =>
                match buildExerciseTransaction opt escrow escrowSequence with
                | .error e => .error e
                | .ok buyerTx =>
                  let ops := lockEscrow ops escrow buyerTx sellerTx
                  let setupTx : Transaction :=
                    { source := opt.seller
                      seqSeed := account
                      fee := opt.networkOptions.fee
                      timeBounds :=
                        { minTime := 0
                          maxTime :=
                            if opt.networkOptions.timeout = 0 then 0
                            else env.systemTimeSeconds + opt.networkOptions.timeout }
                      operations := ops }
                  .ok { setup := setupTx, exercise := buyerTx, refund := sellerTx }

/-- The exercise transaction `buildExerciseTransaction` produces on its
success path (proved equivalent below). -/
def exercisePayload (opt : OptionData) (escrow : String) (n : ℤ) : Transaction :=
  { source := escrow
    seqSeed := n
    fee := opt.networkOptions.fee
    timeBounds := { minTime := opt.expiry, maxTime := opt.expiry + opt.delay }
    operations :=
      [Operation.paymentOp opt.buyer opt.seller opt.exercise.asset opt.exercise.amount,
       Operation.paymentOp escrow opt.buyer opt.underlying.asset opt.underlying.amount] ++
      (if opt.underlying.asset.isNative then []
       else [Operation.changeTrustOp escrow opt.underlying.asset 0]) ++
      [Operation.accountMergeOp escrow opt.seller] }

/-- The refund transaction `buildRefundTransaction` produces on its success
path (proved equivalent below). -/
def refundPayload (opt : OptionData) (escrow : String) (n : ℤ) : Transaction :=
  { source := escrow
    seqSeed := n
    fee := opt.networkOptions.fee
    timeBounds := { minTime := opt.expiry + opt.delay, maxTime := 0 }
    operations :=
      [Operation.paymentOp escrow opt.seller opt.underlying.asset opt.underlying.amount] ++
      (if opt.underlying.asset.isNative then []
       else [Operation.changeTrustOp escrow opt.underlying.asset 0]) ++
      [Operation.accountMergeOp escrow opt.seller] }

/-- The setup transaction `createTransactions` produces on its success path
(proved equivalent below). -/
def setupPayload (account : ℤ) (rec : LedgerRecord) (t : ℤ)
    (opt : OptionData) (escrow : String) : Transaction :=
  let n := calculateEscrowSequenceNumber opt rec
  { source := opt.seller
    seqSeed := account
    fee := opt.networkOptions.fee
    timeBounds :=
      { minTime := 0
        maxTime :=
          if opt.networkOptions.timeout = 0 then 0
          else t + opt.networkOptions.timeout }
    operations :=
      [Operation.createAccountOp opt.seller escrow (calculateStartingBalance opt),
       Operation.bumpSequenceOp escrow n] ++
      (if opt.underlying.asset.isNative then []
       else [Operation.changeTrustOp escrow opt.underlying.asset opt.underlying.amount]) ++
      [Operation.paymentOp opt.seller escrow opt.underlying.asset opt.underlying.amount,
       Operation.paymentOp opt.buyer opt.seller opt.premium.asset opt.premium.amount,
       Operation.preAuthTxSignerOp escrow (Transaction.hash (exercisePayload opt escrow n)) 1,
       Operation.preAuthTxSignerOp escrow (Transaction.hash (refundPayload opt escrow n)) 1,
       Operation.masterWeightOp escrow 0] }

theorem isValidAmount_of_strict {a : ℚ} (h : isValidAmount a false = true) :
    isValidAmount a true = true := by
  simp only [isValidAmount, Bool.and_eq_true, decide_eq_true_eq] at h ⊢
  exact ⟨⟨h.1.1.le, h.1.2⟩, h.2⟩

theorem isValidAmount_pos {a : ℚ} (h : isValidAmount a false = true) : 0 < a := by
  simp only [isValidAmount, Bool.and_eq_true, decide_eq_true_eq] at h
  exact h.1.1

/-- Success-path characterization of `buildExerciseTransaction`. -/
theorem buildExerciseTransaction_ok_iff (opt : OptionData) (escrow : String)
    (n : ℤ) (tx : Transaction) :
    buildExerciseTransaction opt escrow n = Except.ok tx ↔
      isValidAmount opt.exercise.amount false = true ∧
      isValidAmount opt.underlying.amount false = true ∧
      tx = exercisePayload opt escrow n := by
  by_cases hx : isValidAmount opt.exercise.amount false = true <;>
  by_cases hu : isValidAmount opt.underlying.amount false = true <;>
  cases hnn : opt.underlying.asset.isNative <;>
  simp [buildExerciseTransaction, sendPayment, removeTrustline, mergeAccount,
    exercisePayload, hx, hu, hnn, eq_comm]

/-- Success-path characterization of `buildRefundTransaction`. -/
theorem buildRefundTransaction_ok_iff (opt : OptionData) (escrow : String)
    (n : ℤ) (tx : Transaction) :
    buildRefundTransaction opt escrow n = Except.ok tx ↔
      isValidAmount opt.underlying.amount false = true ∧
      tx = refundPayload opt escrow n := by
  by_cases hu : isValidAmount opt.underlying.amount false = true <;>
  cases hnn : opt.underlying.asset.isNative <;>
  simp [buildRefundTransaction, sendPayment, removeTrustline, mergeAccount,
    refundPayload, hu, hnn, eq_comm]

/-- Success-path characterization of `createTransactions`: it succeeds
exactly when the Horizon queries succeed and every amount the stellar-sdk
validates is valid, and then the three envelopes are the explicit payload
records. -/
theorem createTransactions_ok_iff (account : ℤ) (rec : LedgerRecord) (t : ℤ)
    (opt : OptionData) (escrow : String) (out : OptionTransactions) :
    createTransactions ⟨some account, some rec, t⟩ opt escrow = Except.ok out ↔
      isValidAmount (calculateStartingBalance opt) false = true ∧
      isValidAmount opt.underlying.amount false = true ∧
      isValidAmount opt.premium.amount false = true ∧
      isValidAmount opt.exercise.amount false = true ∧
      out = { setup := setupPayload account rec t opt escrow
              exercise := exercisePayload opt escrow (calculateEscrowSequenceNumber opt rec)
              refund := refundPayload opt escrow (calculateEscrowSequenceNumber opt rec) } := by
  cases hnn : opt.underlying.asset.isNative <;>
  by_cases hb : isValidAmount (calculateStartingBalance opt) false = true <;>
  by_cases hu : isValidAmount opt.underlying.amount false = true <;>
  by_cases hp : isValidAmount opt.premium.amount false = true <;>
  by_cases hx : isValidAmount opt.exercise.amount false = true <;>
  by_cases hul : isValidAmount opt.underlying.amount true = true <;>
  first
  | exact absurd (isValidAmount_of_strict hu) hul
  | simp [createTransactions, createAccount, addTrustline, sendPayment,
      buildRefundTransaction, buildExerciseTransaction, removeTrustline,
      mergeAccount, lockEscrow, setupPayload, exercisePayload, refundPayload,
      hnn, hb, hu, hp, hx, hul, eq_comm]

/-- A failed seller-account query yields no output. -/
theorem createTransactions_noAccount (l : Option LedgerRecord) (t : ℤ)
    (opt : OptionData) (escrow : String) :
    (createTransactions ⟨none, l, t⟩ opt escrow).toOption = none := rfl

/-- A failed latest-ledger query yields no output. -/
theorem createTransactions_noLedger (a : Option ℤ) (t : ℤ)
    (opt : OptionData) (escrow : String) :
    (createTransactions ⟨a, none, t⟩ opt escrow).toOption = none := by
  cases a <;> rfl

/-- Validity of a transaction's time bounds at a close time, spelled as a
proposition. -/
theorem containsTime_iff (tb : TimeBounds) (t : ℤ) :
    tb.containsTime t = true ↔
      (tb.minTime ≤ t ∧ (tb.maxTime = 0 ∨ t ≤ tb.maxTime)) := by
  simp [TimeBounds.containsTime]

/-- Concrete latest-ledger record: height 100, close time 1000 s. -/
def recW : LedgerRecord := { sequence := 100, closedAtSeconds := 1000 }

/-- Concrete option with a native underlying and default network options. -/
def optWnative : OptionData :=
  mkOptionData "GBUYER" "GSELLER"
    { underlying := { asset := Asset.native, amount := 5 }
      premium := { asset := Asset.native, amount := 10 }
      exercise := { asset := Asset.native, amount := 200 }
      expiry := 1300
      delay := 60 }

/-- Concrete option with a non-native (credit) underlying asset. -/
def optWusd : OptionData :=
  mkOptionData "GBUYER" "GSELLER"
    { underlying := { asset := Asset.alphanum "USD" "GISSUER", amount := 5 }
      premium := { asset := Asset.native, amount := 10 }
      exercise := { asset := Asset.native, amount := 200 }
      expiry := 1300
      delay := 60 }

/-- Concrete option with expiry 1000 and delay 60. -/
def optW2 : OptionData :=
  mkOptionData "GBUYER" "GSELLER"
    { underlying := { asset := Asset.native, amount := 5 }
      premium := { asset := Asset.native, amount := 10 }
      exercise := { asset := Asset.native, amount := 200 }
      expiry := 1000
      delay := 60 }

/-- Concrete option with a negative delay. -/
def optW6 : OptionData :=
  mkOptionData "GBUYER" "GSELLER"
    { underlying := { asset := Asset.native, amount := 5 }
      premium := { asset := Asset.native, amount := 10 }
      exercise := { asset := Asset.native, amount := 200 }
      expiry := 1300
      delay := -5 }

/-- Concrete option with a negative premium amount. -/
def optWnegP : OptionData :=
  mkOptionData "GBUYER" "GSELLER"
    { underlying := { asset := Asset.native, amount := 5 }
      premium := { asset := Asset.native, amount := -3 }
      exercise := { asset := Asset.native, amount := 200 }
      expiry := 1300
      delay := 60 }

theorem hval_5 : isValidAmount (5 : ℚ) false = true := by
  simp only [isValidAmount, Bool.and_eq_true, decide_eq_true_eq]
  norm_num

theorem hval_10 : isValidAmount (10 : ℚ) false = true := by
  simp only [isValidAmount, Bool.and_eq_true, decide_eq_true_eq]
  norm_num

theorem hval_200 : isValidAmount (200 : ℚ) false = true := by
  simp only [isValidAmount, Bool.and_eq_true, decide_eq_true_eq]
  norm_num

theorem hbal_native : isValidAmount (calculateStartingBalance optWnative) false = true := by
  have hb : calculateStartingBalance optWnative = 20003 / 10000 := by
    norm_num [calculateStartingBalance, optWnative, mkOptionData, networkDefaults,
      Asset.isNative]
  rw [hb]
  simp only [isValidAmount, Bool.and_eq_true, decide_eq_true_eq]
  norm_num

theorem hbal_usd : isValidAmount (calculateStartingBalance optWusd) false = true := by
  have hb : calculateStartingBalance optWusd = 6251 / 2500 := by
    norm_num [calculateStartingBalance, optWusd, mkOptionData, networkDefaults,
      Asset.isNative]
  rw [hb]
  simp only [isValidAmount, Bool.and_eq_true, decide_eq_true_eq]
  norm_num

/-- The transaction set produced for `optWnative` at system time `t`. -/
def outWn (t : ℤ) : OptionTransactions :=
  { setup := setupPayload 7 recW t optWnative "GESCROW"
    exercise := exercisePayload optWnative "GESCROW" (calculateEscrowSequenceNumber optWnative recW)
    refund := refundPayload optWnative "GESCROW" (calculateEscrowSequenceNumber optWnative recW) }

/-- The transaction set produced for `optWusd` at system time 5000. -/
def outWu : OptionTransactions :=
  { setup := setupPayload 7 recW 5000 optWusd "GESCROW"
    exercise := exercisePayload optWusd "GESCROW" (calculateEscrowSequenceNumber optWusd recW)
    refund := refundPayload optWusd "GESCROW" (calculateEscrowSequenceNumber optWusd recW) }

/-- The transaction set produced for `optW6` at system time 5000. -/
def outW6 : OptionTransactions :=
  { setup := setupPayload 7 recW 5000 optW6 "GESCROW"
    exercise := exercisePayload optW6 "GESCROW" (calculateEscrowSequenceNumber optW6 recW)
    refund := refundPayload optW6 "GESCROW" (calculateEscrowSequenceNumber optW6 recW) }

theorem hokN (t : ℤ) : createTransactions ⟨some 7, some recW, t⟩ optWnative "GESCROW" =
    Except.ok (outWn t) :=
  (createTransactions_ok_iff 7 recW t optWnative "GESCROW" (outWn t)).mpr
    ⟨hbal_native, hval_5, hval_10, hval_200, rfl⟩

theorem hokU : createTransactions ⟨some 7, some recW, 5000⟩ optWusd "GESCROW" =
    Except.ok outWu :=
  (createTransactions_ok_iff 7 recW 5000 optWusd "GESCROW" outWu).mpr
    ⟨hbal_usd, hval_5, hval_10, hval_200, rfl⟩

theorem hok6 : createTransactions ⟨some 7, some recW, 5000⟩ optW6 "GESCROW" =
    Except.ok outW6 :=
  (createTransactions_ok_iff 7 recW 5000 optW6 "GESCROW" outW6).mpr
    ⟨hbal_native, hval_5, hval_10, hval_200, rfl⟩

theorem hexW2 : buildExerciseTransaction optW2 "GESCROW" 42 =
    Except.ok (exercisePayload optW2 "GESCROW" 42) :=
  (buildExerciseTransaction_ok_iff optW2 "GESCROW" 42 _).mpr ⟨hval_200, hval_5, rfl⟩

theorem hrfW2 : buildRefundTransaction optW2 "GESCROW" 42 =
    Except.ok (refundPayload optW2 "GESCROW" 42) :=
  (buildRefundTransaction_ok_iff optW2 "GESCROW" 42 _).mpr ⟨hval_5, rfl⟩

/-- C1: for every successful build, the bump-sequence operation inside
setup bumps the escrow to the predicted escrow sequence value, and exactly
that value seeds both the exercise and the refund transaction; after the
bump executes the escrow account's next valid sequence number
(`bumpTo + 1`) equals the sequence number in both envelopes
(`seed + 1`). -/
theorem c1_bump_target_matches_exercise_and_refund
    (account : ℤ) (rec : LedgerRecord) (t : ℤ) (opt : OptionData)
    (escrow : String) (out : OptionTransactions)
    (h : createTransactions ⟨some account, some rec, t⟩ opt escrow = Except.ok out) :
    out.setup.operations.get? 1 =
      some (Operation.bumpSequenceOp escrow (calculateEscrowSequenceNumber opt rec)) ∧
    out.exercise.seqSeed = calculateEscrowSequenceNumber opt rec ∧
    out.refund.seqSeed = calculateEscrowSequenceNumber opt rec ∧
    out.exercise.sequenceNumber =
      bumpedNextValidSequence (calculateEscrowSequenceNumber opt rec) ∧
    out.refund.sequenceNumber =
      bumpedNextValidSequence (calculateEscrowSequenceNumber opt rec) := by
  obtain ⟨-, -, -, -, rfl⟩ := (createTransactions_ok_iff _ _ _ _ _ _).mp h
  exact ⟨rfl, rfl, rfl, rfl, rfl⟩

theorem c1_witness :
    createTransactions ⟨some 7, some recW, 5000⟩ optWnative "GESCROW" =
      Except.ok (outWn 5000) ∧
    ((outWn 5000).setup.operations.get? 1 =
      some (Operation.bumpSequenceOp "GESCROW" (calculateEscrowSequenceNumber optWnative recW)) ∧
    (outWn 5000).exercise.seqSeed = calculateEscrowSequenceNumber optWnative recW ∧
    (outWn 5000).refund.seqSeed = calculateEscrowSequenceNumber optWnative recW ∧
    (outWn 5000).exercise.sequenceNumber =
      bumpedNextValidSequence (calculateEscrowSequenceNumber optWnative recW) ∧
    (outWn 5000).refund.sequenceNumber =
      bumpedNextValidSequence (calculateEscrowSequenceNumber optWnative recW)) :=
  ⟨hokN 5000,
   c1_bump_target_matches_exercise_and_refund 7 recW 5000 optWnative "GESCROW"
     (outWn 5000) (hokN 5000)⟩

/-- C2 counterexample: with expiry 1000 and delay 60, the timestamp
`expiry + delay = 1060` lies inside the validity windows of BOTH the
exercise and the refund transaction (ledger time bounds are inclusive at
`maxTime`), so the exercise window is not the half-open
`[expiry, expiry+delay)` and the two windows are not disjoint. -/
theorem c2_counterexample_boundary_in_both_windows :
    optW2.expiry = 1000 ∧ optW2.delay = 60 ∧
    (buildExerciseTransaction optW2 "GESCROW" 42).map
        (fun tx => tx.timeBounds.containsTime 1060) = Except.ok true ∧
    (buildRefundTransaction optW2 "GESCROW" 42).map
        (fun tx => tx.timeBounds.containsTime 1060) = Except.ok true := by
  refine ⟨rfl, rfl, ?_, ?_⟩
  · rw [hexW2]; rfl
  · rw [hrfW2]; rfl

/-- C2 (amended): the exercise window is the inclusive interval
`[expiry, expiry+delay]` and the refund window opens at exactly
`expiry+delay` and is unbounded above; the windows are contiguous with no
gap, they overlap in exactly the single boundary timestamp
`expiry + delay`, and every other timestamp is contained in at most one of
the two. -/
theorem c2_amended_windows_inclusive_contiguous
    (opt : OptionData) (escrow : String) (n : ℤ) (ex rf : Transaction)
    (hex : buildExerciseTransaction opt escrow n = Except.ok ex)
    (hrf : buildRefundTransaction opt escrow n = Except.ok rf)
    (hdelay : 0 ≤ opt.delay)
    (hpos : 0 < opt.expiry + opt.delay) :
    (∀ t : ℤ, ex.timeBounds.containsTime t = true ↔
        opt.expiry ≤ t ∧ t ≤ opt.expiry + opt.delay) ∧
    (∀ t : ℤ, rf.timeBounds.containsTime t = true ↔ opt.expiry + opt.delay ≤ t) ∧
    ex.timeBounds.containsTime (opt.expiry + opt.delay) = true ∧
    rf.timeBounds.containsTime (opt.expiry + opt.delay) = true ∧
    (∀ t : ℤ, t ≠ opt.expiry + opt.delay →
        ¬(ex.timeBounds.containsTime t = true ∧ rf.timeBounds.containsTime t = true)) ∧
    (∀ t : ℤ, opt.expiry ≤ t →
        ex.timeBounds.containsTime t = true ∨ rf.timeBounds.containsTime t = true) := by
  obtain ⟨-, -, rfl⟩ := (buildExerciseTransaction_ok_iff _ _ _ _).mp hex
  obtain ⟨-, rfl⟩ := (buildRefundTransaction_ok_iff _ _ _ _).mp hrf
  refine ⟨fun t => ?_, fun t => ?_, ?_, ?_, fun t ht hboth => ?_, fun t ht => ?_⟩ <;>
    simp only [containsTime_iff, exercisePayload, refundPayload, true_or,
      and_true] at * <;>
    omega

theorem c2_amended_witness :
    buildExerciseTransaction optW2 "GESCROW" 42 =
      Except.ok (exercisePayload optW2 "GESCROW" 42) ∧
    buildRefundTransaction optW2 "GESCROW" 42 =
      Except.ok (refundPayload optW2 "GESCROW" 42) ∧
    0 ≤ optW2.delay ∧ 0 < optW2.expiry + optW2.delay ∧
    (exercisePayload optW2 "GESCROW" 42).timeBounds.containsTime
      (optW2.expiry + optW2.delay) = true ∧
    (refundPayload optW2 "GESCROW" 42).timeBounds.containsTime
      (optW2.expiry + optW2.delay) = true := by
  have h := c2_amended_windows_inclusive_contiguous optW2 "GESCROW" 42
    (exercisePayload optW2 "GESCROW" 42) (refundPayload optW2 "GESCROW" 42)
    hexW2 hrfW2 (by decide) (by decide)
  exact ⟨hexW2, hrfW2, by decide, by decide, h.2.2.1, h.2.2.2.1⟩

/-- C3: the predicted escrow sequence number for a latest ledger of height
`H` closed at time `T`, submit timeout `S` and expiry `E` is
`(H + floor((S + (E - T)) / 10)) * 2^32`; in particular, for `H = 100`,
`T = 1000`, `S = 1800`, `E = 1300` it is `1331439861760`. -/
theorem c3_predicted_sequence_formula :
    (∀ (opt : OptionData) (H T : ℤ),
       calculateEscrowSequenceNumber opt { sequence := H, closedAtSeconds := T } =
         (H + Int.fdiv (opt.networkOptions.timeout + (opt.expiry - T)) 10) * 2 ^ 32) ∧
    optWnative.networkOptions.timeout = 1800 ∧ optWnative.expiry = 1300 ∧
    calculateEscrowSequenceNumber optWnative { sequence := 100, closedAtSeconds := 1000 } =
      1331439861760 := by
  refine ⟨fun opt H T => ?_, rfl, rfl, by decide⟩
  simp only [calculateEscrowSequenceNumber, ledgerToSequenceNumberValue]
  norm_num

/-- C4: for every successful build, the setup transaction's operations are,
in exactly this order: create the escrow account with the computed minimum
balance; bump the escrow's sequence to the predicted target; change-trust
on escrow for the underlying (present iff non-native); pay the underlying
from seller to escrow; pay the premium from buyer to seller; add the hash
of the exercise transaction as a weight-1 pre-authorized-transaction
signer; the same for the refund transaction; set the escrow master key
weight to 0. -/
theorem c4_setup_operation_order
    (account : ℤ) (rec : LedgerRecord) (t : ℤ) (opt : OptionData)
    (escrow : String) (out : OptionTransactions)
    (h : createTransactions ⟨some account, some rec, t⟩ opt escrow = Except.ok out) :
    out.setup.operations =
      [Operation.createAccountOp opt.seller escrow (calculateStartingBalance opt),
       Operation.bumpSequenceOp escrow (calculateEscrowSequenceNumber opt rec)] ++
      (if opt.underlying.asset.isNative then []
       else [Operation.changeTrustOp escrow opt.underlying.asset opt.underlying.amount]) ++
      [Operation.paymentOp opt.seller escrow opt.underlying.asset opt.underlying.amount,
       Operation.paymentOp opt.buyer opt.seller opt.premium.asset opt.premium.amount,
       Operation.preAuthTxSignerOp escrow out.exercise.hash 1,
       Operation.preAuthTxSignerOp escrow out.refund.hash 1,
       Operation.masterWeightOp escrow 0] := by
  obtain ⟨-, -, -, -, rfl⟩ := (createTransactions_ok_iff _ _ _ _ _ _).mp h
  rfl

theorem c4_witness :
    createTransactions ⟨some 7, some recW, 5000⟩ optWusd "GESCROW" = Except.ok outWu ∧
    outWu.setup.operations =
      [Operation.createAccountOp optWusd.seller "GESCROW" (calculateStartingBalance optWusd),
       Operation.bumpSequenceOp "GESCROW" (calculateEscrowSequenceNumber optWusd recW)] ++
      (if optWusd.underlying.asset.isNative then []
       else [Operation.changeTrustOp "GESCROW" optWusd.underlying.asset optWusd.underlying.amount]) ++
      [Operation.paymentOp optWusd.seller "GESCROW" optWusd.underlying.asset optWusd.underlying.amount,
       Operation.paymentOp optWusd.buyer optWusd.seller optWusd.premium.asset optWusd.premium.amount,
       Operation.preAuthTxSignerOp "GESCROW" outWu.exercise.hash 1,
       Operation.preAuthTxSignerOp "GESCROW" outWu.refund.hash 1,
       Operation.masterWeightOp "GESCROW" 0] :=
  ⟨hokU, c4_setup_operation_order 7 recW 5000 optWusd "GESCROW" outWu hokU⟩

/-- C5: the computed minimum escrow starting balance equals
`baseReserve * (4 + e) + 0.0000001 * fee * (3 + e)` with `e = 1` iff the
underlying is non-native; with default network parameters and a native
underlying it equals `0.5 * 4 + 0.0000001 * 1000 * 3`. -/
theorem c5_minimum_balance_formula :
    (∀ opt : OptionData,
       calculateStartingBalance opt =
         opt.networkOptions.baseReserve *
             (4 + (if opt.underlying.asset.isNative then (0 : ℚ) else 1)) +
           0.0000001 * opt.networkOptions.fee *
             (3 + (if opt.underlying.asset.isNative then (0 : ℚ) else 1))) ∧
    optWnative.networkOptions = networkDefaults ∧
    optWnative.underlying.asset.isNative = true ∧
    calculateStartingBalance optWnative = 0.5 * 4 + 0.0000001 * 1000 * 3 := by
  refine ⟨fun opt => rfl, rfl, rfl, ?_⟩
  norm_num [calculateStartingBalance, optWnative, mkOptionData, networkDefaults,
    Asset.isNative]

/-- C6 counterexample: a negative `delay` is not rejected — with delay
`-5`, valid amounts and successful queries, `createTransactions` returns a
full transaction set rather than an error. -/
theorem c6_counterexample_negative_delay_not_rejected :
    optW6.delay < 0 ∧
    (createTransactions ⟨some 7, some recW, 5000⟩ optW6 "GESCROW").toOption.isSome = true := by
  refine ⟨by decide, ?_⟩
  rw [hok6]
  rfl

/-- C6 (amended): a malformed (negative) amount or a failed ledger/account
query aborts the build with an error and no transaction set; `delay < 0`
is NOT validated and does not by itself cause an error; every successful
build returns a complete set (all three envelopes with their full
operation lists) — there is no partial output. -/
theorem c6_amended_error_behavior :
    (∀ (env : Env) (opt : OptionData) (escrow : String),
       (opt.underlying.amount < 0 ∨ opt.premium.amount < 0 ∨ opt.exercise.amount < 0) →
       (createTransactions env opt escrow).toOption = none) ∧
    (∀ (a : Option ℤ) (l : Option LedgerRecord) (t : ℤ)
        (opt : OptionData) (escrow : String),
       (createTransactions ⟨a, none, t⟩ opt escrow).toOption = none ∧
       (createTransactions ⟨none, l, t⟩ opt escrow).toOption = none) ∧
    (∀ (env : Env) (opt : OptionData) (escrow : String) (out : OptionTransactions),
       createTransactions env opt escrow = Except.ok out →
       out.setup.operations.length = (if opt.underlying.asset.isNative then 7 else 8) ∧
       out.exercise.operations.length = (if opt.underlying.asset.isNative then 3 else 4) ∧
       out.refund.operations.length = (if opt.underlying.asset.isNative then 2 else 3)) := by
  refine ⟨?_, ?_, ?_⟩
  · rintro ⟨a, l, t⟩ opt escrow hneg
    cases a with
    | none => exact createTransactions_noAccount l t opt escrow
    | some account =>
      cases l with
      | none => exact createTransactions_noLedger (some account) t opt escrow
      | some rec =>
        cases hres : createTransactions ⟨some account, some rec, t⟩ opt escrow with
        | error e => simp [Except.toOption, hres]
        | ok out =>
          exfalso
          obtain ⟨-, hu, hp, hx, -⟩ := (createTransactions_ok_iff _ _ _ _ _ _).mp hres
          rcases hneg with hn | hn | hn
          · exact absurd (isValidAmount_pos hu) (by linarith)
          · exact absurd (isValidAmount_pos hp) (by linarith)
          · exact absurd (isValidAmount_pos hx) (by linarith)
  · intro a l t opt escrow
    exact ⟨createTransactions_noLedger a t opt escrow,
           createTransactions_noAccount l t opt escrow⟩
  · rintro ⟨a, l, t⟩ opt escrow out h
    cases a with
    | none => simp [createTransactions] at h
    | some account =>
      cases l with
      | none => simp [createTransactions] at h
      | some rec =>
        obtain ⟨-, -, -, -, rfl⟩ := (createTransactions_ok_iff _ _ _ _ _ _).mp h
        cases hnn : opt.underlying.asset.isNative <;>
          simp [setupPayload, exercisePayload, refundPayload, hnn]

theorem c6_amended_witness :
    optWnegP.premium.amount < 0 ∧
    (createTransactions ⟨some 7, some recW, 5000⟩ optWnegP "GESCROW").toOption = none ∧
    createTransactions ⟨some 7, some recW, 5000⟩ optWusd "GESCROW" = Except.ok outWu ∧
    outWu.setup.operations.length = (if optWusd.underlying.asset.isNative then 7 else 8) :=
  ⟨by decide,
   c6_amended_error_behavior.1 ⟨some 7, some recW, 5000⟩ optWnegP "GESCROW"
     (Or.inr (Or.inl (by decide))),
   hokU,
   (c6_amended_error_behavior.2.2 ⟨some 7, some recW, 5000⟩ optWusd "GESCROW" outWu hokU).1⟩

/-- C7: for every successful build, when the underlying asset is non-native
both the exercise and the refund transaction contain the trust-removal
operation (change-trust with limit 0) for that asset on the escrow account;
when it is native, neither contains any change-trust operation. -/
theorem c7_trust_removal_iff_nonnative
    (account : ℤ) (rec : LedgerRecord) (t : ℤ) (opt : OptionData)
    (escrow : String) (out : OptionTransactions)
    (h : createTransactions ⟨some account, some rec, t⟩ opt escrow = Except.ok out) :
    (opt.underlying.asset.isNative = false →
       Operation.changeTrustOp escrow opt.underlying.asset 0 ∈ out.exercise.operations ∧
       Operation.changeTrustOp escrow opt.underlying.asset 0 ∈ out.refund.operations) ∧
    (opt.underlying.asset.isNative = true →
       (∀ (s : String) (a : Asset) (lim : ℚ),
          Operation.changeTrustOp s a lim ∉ out.exercise.operations) ∧
       (∀ (s : String) (a : Asset) (lim : ℚ),
          Operation.changeTrustOp s a lim ∉ out.refund.operations)) := by
  obtain ⟨-, -, -, -, rfl⟩ := (createTransactions_ok_iff _ _ _ _ _ _).mp h
  constructor
  · intro hnn
    constructor <;> simp [exercisePayload, refundPayload, hnn]
  · intro hnn
    constructor <;> intro s a lim <;> simp [exercisePayload, refundPayload, hnn]

theorem c7_witness :
    createTransactions ⟨some 7, some recW, 5000⟩ optWusd "GESCROW" = Except.ok outWu ∧
    Operation.changeTrustOp "GESCROW" optWusd.underlying.asset 0 ∈
      outWu.exercise.operations ∧
    Operation.changeTrustOp "GESCROW" optWusd.underlying.asset 0 ∈
      outWu.refund.operations :=
  ⟨hokU,
   (c7_trust_removal_iff_nonnative 7 recW 5000 optWusd "GESCROW" outWu hokU).1 rfl⟩

/-- C8: the final sequence number is formed with exact integer arithmetic:
for every ledger index up to `2^32`, `ledgerToSequenceNumber` returns the
exact decimal string of `index * 4294967296`. -/
theorem c8_sequence_string_exact (L : ℕ) (hL : L ≤ 2 ^ 32) :
    ledgerToSequenceNumber (L : ℤ) = Nat.repr (L * 4294967296) := by
  have hcast : ((L : ℤ) * 4294967296) = ((L * 4294967296 : ℕ) : ℤ) := by push_cast; ring
  unfold ledgerToSequenceNumber ledgerToSequenceNumberValue
  rw [hcast]
  rfl

theorem c8_witness :
    (2 ^ 32 : ℕ) ≤ 2 ^ 32 ∧
    ledgerToSequenceNumber ((2 ^ 32 : ℕ) : ℤ) = Nat.repr (2 ^ 32 * 4294967296) ∧
    Nat.repr ((2 ^ 32 : ℕ) * 4294967296) = "18446744073709551616" ∧
    9007199254740992 < (2 ^ 32 : ℕ) * 4294967296 :=
  ⟨le_refl _, c8_sequence_string_exact (2 ^ 32) (le_refl _), by decide, by norm_num⟩

/-- C9: the sequence estimator never reads the system clock — "now" is the
latest ledger's close time.  For a fixed ledger record the predicted
sequence (and with it the whole exercise and refund transactions) is
unchanged under any system time, and it is a function of exactly the
ledger height, the close time, the configured timeout and the expiry. -/
theorem c9_estimator_clock_independent
    (opt : OptionData) (escrow : String) (a : Option ℤ) (rec : LedgerRecord)
    (t₁ t₂ : ℤ) (out : OptionTransactions)
    (h : createTransactions ⟨a, some rec, t₁⟩ opt escrow = Except.ok out) :
    out.exercise.seqSeed = calculateEscrowSequenceNumber opt rec ∧
    (createTransactions ⟨a, some rec, t₂⟩ opt escrow).map (fun s => s.exercise) =
      Except.ok out.exercise ∧
    (createTransactions ⟨a, some rec, t₂⟩ opt escrow).map (fun s => s.refund) =
      Except.ok out.refund ∧
    (∀ (opt' : OptionData) (rec' : LedgerRecord),
       rec.sequence = rec'.sequence → rec.closedAtSeconds = rec'.closedAtSeconds →
       opt.expiry = opt'.expiry →
       opt.networkOptions.timeout = opt'.networkOptions.timeout →
       calculateEscrowSequenceNumber opt rec = calculateEscrowSequenceNumber opt' rec') := by
  cases a with
  | none => simp [createTransactions] at h
  | some account =>
    obtain ⟨hb, hu, hp, hx, rfl⟩ := (createTransactions_ok_iff _ _ _ _ _ _).mp h
    refine ⟨rfl, ?_, ?_, ?_⟩
    · rw [(createTransactions_ok_iff account rec t₂ opt escrow _).mpr
        ⟨hb, hu, hp, hx, rfl⟩]
      rfl
    · rw [(createTransactions_ok_iff account rec t₂ opt escrow _).mpr
        ⟨hb, hu, hp, hx, rfl⟩]
      rfl
    · intro opt' rec' h1 h2 h3 h4
      simp [calculateEscrowSequenceNumber, ledgerToSequenceNumberValue, h1, h2, h3, h4]

theorem c9_witness :
    createTransactions ⟨some 7, some recW, 111⟩ optWnative "GESCROW" =
      Except.ok (outWn 111) ∧
    (outWn 111).exercise.seqSeed = calculateEscrowSequenceNumber optWnative recW ∧
    (createTransactions ⟨some 7, some recW, 222⟩ optWnative "GESCROW").map
      (fun s => s.exercise) = Except.ok (outWn 111).exercise :=
  ⟨hokN 111,
   (c9_estimator_clock_independent optWnative "GESCROW" (some 7) recW 111 222
      (outWn 111) (hokN 111)).1,
   (c9_estimator_clock_independent optWnative "GESCROW" (some 7) recW 111 222
      (outWn 111) (hokN 111)).2.1⟩

/-- C10: for every successful build, when the underlying asset is
non-native the setup transaction's change-trust operation for the escrow
sets the trust limit to exactly the underlying amount (every change-trust
operation in setup carries exactly that source, asset and limit), and when
the underlying is native setup contains no change-trust operation at
all. -/
theorem c10_setup_trustline_limit
    (account : ℤ) (rec : LedgerRecord) (t : ℤ) (opt : OptionData)
    (escrow : String) (out : OptionTransactions)
    (h : createTransactions ⟨some account, some rec, t⟩ opt escrow = Except.ok out) :
    (opt.underlying.asset.isNative = false →
       Operation.changeTrustOp escrow opt.underlying.asset opt.underlying.amount ∈
         out.setup.operations ∧
       (∀ (s : String) (a : Asset) (lim : ℚ),
          Operation.changeTrustOp s a lim ∈ out.setup.operations →
          s = escrow ∧ a = opt.underlying.asset ∧ lim = opt.underlying.amount)) ∧
    (opt.underlying.asset.isNative = true →
       ∀ (s : String) (a : Asset) (lim : ℚ),
         Operation.changeTrustOp s a lim ∉ out.setup.operations) := by
  obtain ⟨-, -, -, -, rfl⟩ := (createTransactions_ok_iff _ _ _ _ _ _).mp h
  constructor
  · intro hnn
    constructor
    · simp [setupPayload, hnn]
    · intro s a lim hmem
      simp [setupPayload, hnn] at hmem
      exact ⟨hmem.1, hmem.2.1, hmem.2.2⟩
  · intro hnn s a lim
    simp [setupPayload, hnn]

theorem c10_witness :
    createTransactions ⟨some 7, some recW, 5000⟩ optWusd "GESCROW" = Except.ok outWu ∧
    Operation.changeTrustOp "GESCROW" optWusd.underlying.asset optWusd.underlying.amount ∈
      outWu.setup.operations :=
  ⟨hokU,
   ((c10_setup_trustline_limit 7 recW 5000 optWusd "GESCROW" outWu hokU).1 rfl).1⟩

end StellarOption
